import Mathlib

/-!
Verification of the Ontology-Tradecraft project-4 pipeline
(`normalize_readings.py`, `measure_rdflib.py`, `run_sparql_qc.py`,
`qc_fix.py`) against its natural-language specification.

The Python scripts are shallowly embedded below.  Pandas cells are
`Option String` (with `none` for NaN), pandas numeric values are exact
rationals `ℚ`, DataFrames are lists of rows, and the rdflib graph is a
list of triples over a `Node` type.  All definitions are executable so
that concrete scenarios evaluate by `decide` / `rfl`.
-/

namespace OT

/-! ## Python string primitives

`pyStrip` models `str.strip()`, `pyLower` models `str.lower()` on the
character repertoire occurring in the scripts' tables (ASCII letters
plus the Greek capital omega used by the unit alias tables). -/

/-- Characters removed by Python `str.strip()`. -/
def isPySpace (c : Char) : Bool :=
  c = ' ' || c = '\t' || c = '\n' || c = '\x0d' || c = '\x0b' || c = '\x0c'

/-- Drop leading and trailing characters satisfying `p`. -/
def trimBy (p : Char → Bool) (l : List Char) : List Char :=
  ((l.dropWhile p).reverse.dropWhile p).reverse

/-- Python `str.strip()`. -/
def pyStrip (s : String) : String := ⟨trimBy isPySpace s.data⟩

/-- Python `str.lower()` restricted to ASCII plus `Ω` (U+03A9 → U+03C9),
the only cased non-ASCII character appearing in the alias tables. -/
def lowerChar (c : Char) : Char :=
  if 'A' ≤ c ∧ c ≤ 'Z' then Char.ofNat (c.toNat + 32)
  else if c = 'Ω' then 'ω' else c

/-- Python `str.lower()`. -/
def pyLower (s : String) : String := ⟨s.data.map lowerChar⟩

/-- Code-point comparison of characters, as Python compares strings. -/
def charLt (a b : Char) : Bool := a.toNat < b.toNat

/-- Lexicographic code-point comparison of strings (Python `<`). -/
def strLtB : List Char → List Char → Bool
  | [], [] => false
  | [], _ :: _ => true
  | _ :: _, [] => false
  | a :: as, b :: bs => if a = b then strLtB as bs else charLt a b

/-- Python string `<=`. -/
def strLeB (a b : String) : Bool := a = b || strLtB a.data b.data

/-- Python `str.replace(" ", "-")`: a single-character replacement is a
character map. -/
def replaceSpaceDash (s : String) : String :=
  ⟨s.data.map (fun c => if c = ' ' then '-' else c)⟩

/-! ## `_slug` (measure_rdflib.py lines 167-170)

`re.sub(r"[^A-Za-z0-9_]+", "-", text)` replaces each maximal run of
non-word characters by one dash; this equals mapping every non-word
character to a dash and then collapsing dash runs, which is how we
implement it (the subsequent `re.sub(r"-+", "-", ...)` is the same
dash-run collapse). -/

/-- ASCII word characters `[A-Za-z0-9_]`. -/
def isWordC (c : Char) : Bool := c.isAlphanum || c = '_'

/-- Collapse each run of the character `t` to a single occurrence. -/
def collapseRun (t : Char) : List Char → List Char
  | [] => []
  | [c] => [c]
  | c :: d :: rest =>
      if c = t ∧ d = t then collapseRun t (d :: rest)
      else c :: collapseRun t (d :: rest)

/-- `_slug` from measure_rdflib.py: non-word runs become dashes, outer
dashes are stripped, dash runs are collapsed, and the empty result
becomes `"na"`. -/
def slug (s : String) : String :=
  let t1 := collapseRun '-' (s.data.map (fun c => if isWordC c then c else '-'))
  let t2 := trimBy (fun c => c = '-') t1
  let t3 := collapseRun '-' t2
  if t3 = [] then "na" else ⟨t3⟩

/-! ## Numeric coercion (`pd.to_numeric(..., errors="coerce")`)

Modelled on exact rationals: the parser accepts the finite decimal
grammar `[+-] digits [. digits] [(e|E) [+-] digits]` (also `.5`, `1.`),
tolerating surrounding whitespace as pandas does; anything else —
including the literals `nan`/`NaN`, which pandas turns into NaN and
`dropna` then removes — coerces to the missing marker `none`. -/

/-- Numeric value of a digit run. -/
def natOfDigits (l : List Char) : Nat :=
  l.foldl (fun acc c => 10 * acc + (c.toNat - '0'.toNat)) 0

/-- Signed digit run after `e`/`E`; returns the scale factor. -/
def parseExponentDigits (l : List Char) : Option ℚ :=
  let (sgnNeg, l1) : Bool × List Char :=
    match l with
    | '+' :: r => (false, r)
    | '-' :: r => (true, r)
    | _ => (false, l)
  let (ds, rest) := l1.span Char.isDigit
  if ds = [] ∨ rest ≠ [] then none
  else some (if sgnNeg then 1 / (10 : ℚ) ^ natOfDigits ds else (10 : ℚ) ^ natOfDigits ds)

/-- Parse an optional exponent suffix; returns the scale factor. -/
def parseExponent : List Char → Option ℚ
  | [] => some 1
  | 'e' :: r => parseExponentDigits r
  | 'E' :: r => parseExponentDigits r
  | _ => none

/-- Decimal parser for `pd.to_numeric` / Python `float` on finite
decimal literals. -/
def parseFloatQ (s : String) : Option ℚ :=
  let l := trimBy isPySpace s.data
  let (sgn, l1) : ℚ × List Char :=
    match l with
    | '+' :: r => (1, r)
    | '-' :: r => (-1, r)
    | _ => (1, l)
  let (ip, l2) := l1.span Char.isDigit
  match l2 with
  | '.' :: r =>
      let (fp, l3) := r.span Char.isDigit
      if ip = [] ∧ fp = [] then none
      else
        let mantissa : ℚ := (natOfDigits ip : ℚ) + (natOfDigits fp : ℚ) / (10 : ℚ) ^ fp.length
        (parseExponent l3).map (fun e => sgn * mantissa * e)
  | _ =>
      if ip = [] then none
      else (parseExponent l2).map (fun e => sgn * (natOfDigits ip : ℚ) * e)

/-! ## Timestamp coercion (`to_iso8601`, normalize_readings.py lines 92-103)

`dateutil.parser.parse` is an external library; we model the ISO-8601
fragment of its permissive grammar:
`YYYY-MM-DD[( |T)HH:MM[:SS][Z|+HH:MM|-HH:MM]]`, with calendar-valid
dates.  The result mirrors a Python `datetime`: civil fields plus an
optional UTC-offset in minutes (`none` = naive). -/

/-- A parsed Python `datetime`. -/
structure PyDateTime where
  year : Nat
  month : Nat
  day : Nat
  hour : Nat
  minute : Nat
  second : Nat
  /-- UTC offset in minutes; `none` models a naive datetime. -/
  tzMin : Option Int
deriving DecidableEq

/-- Gregorian leap year. -/
def isLeapYear (y : Nat) : Bool := y % 4 = 0 && (y % 100 ≠ 0 || y % 400 = 0)

/-- Days in a month of the proleptic Gregorian calendar. -/
def daysInMonth (y m : Nat) : Nat :=
  if m = 2 then (if isLeapYear y then 29 else 28)
  else if m = 4 ∨ m = 6 ∨ m = 9 ∨ m = 11 then 30 else 31

/-- Read exactly `n` leading digits as a number. -/
def takeDigitsN : Nat → List Char → Option (Nat × List Char)
  | 0, l => some (0, l)
  | _ + 1, [] => none
  | n + 1, c :: r =>
      if c.isDigit then
        (takeDigitsN n r).map (fun p => ((c.toNat - '0'.toNat) * 10 ^ n + p.1, p.2))
      else none

/-- Parse the optional timezone designator `Z` / `+HH:MM` / `-HH:MM`. -/
def parseTz : List Char → Option (Option Int)
  | [] => some none
  | ['Z'] => some (some 0)
  | '+' :: r =>
      match takeDigitsN 2 r with
      | some (h, ':' :: r2) =>
          match takeDigitsN 2 r2 with
          | some (mi, []) => if h < 24 ∧ mi < 60 then some (some ((h : Int) * 60 + mi)) else none
          | _ => none
      | _ => none
  | '-' :: r =>
      match takeDigitsN 2 r with
      | some (h, ':' :: r2) =>
          match takeDigitsN 2 r2 with
          | some (mi, []) => if h < 24 ∧ mi < 60 then some (some (-((h : Int) * 60 + mi))) else none
          | _ => none
      | _ => none
  | _ => none

/-- Parse `HH:MM[:SS]` followed by an optional timezone. -/
def parseTimePart (y m d : Nat) (l : List Char) : Option PyDateTime :=
  match takeDigitsN 2 l with
  | some (h, ':' :: r1) =>
      match takeDigitsN 2 r1 with
      | some (mi, rest) =>
          let (s, rest2) : Nat × List Char :=
            match rest with
            | ':' :: r2 =>
                match takeDigitsN 2 r2 with
                | some (s, r3) => (s, r3)
                | none => (60, rest)
            | _ => (0, rest)
          if h < 24 ∧ mi < 60 ∧ s < 60 then
            (parseTz rest2).map (fun tz =>
              { year := y, month := m, day := d, hour := h, minute := mi, second := s, tzMin := tz })
          else none
      | none => none
  | _ => none

/-- The modelled fragment of `dateutil.parser.parse`. -/
def parseDT (x : String) : Option PyDateTime :=
  let l := trimBy isPySpace x.data
  match takeDigitsN 4 l with
  | some (y, '-' :: r1) =>
      match takeDigitsN 2 r1 with
      | some (m, '-' :: r2) =>
          match takeDigitsN 2 r2 with
          | some (d, rest) =>
              if 1 ≤ m ∧ m ≤ 12 ∧ 1 ≤ d ∧ d ≤ daysInMonth y m then
                match rest with
                | [] => some { year := y, month := m, day := d,
                               hour := 0, minute := 0, second := 0, tzMin := none }
                | 'T' :: r3 => parseTimePart y m d r3
                | ' ' :: r3 => parseTimePart y m d r3
                | _ => none
              else none
          | none => none
      | _ => none
  | _ => none

/-! Civil-date/day-number conversions (Hinnant's algorithms), used to
model `datetime.astimezone(timezone.utc)` for nonzero offsets. -/

/-- Day number of a civil date (days since 1970-01-01). -/
def daysFromCivil (y m d : Int) : Int :=
  let y' := if m ≤ 2 then y - 1 else y
  let era := Int.fdiv y' 400
  let yoe := y' - era * 400
  let mp := (m + 9) % 12
  let doy := (153 * mp + 2) / 5 + d - 1
  let doe := yoe * 365 + yoe / 4 - yoe / 100 + doy
  era * 146097 + doe - 719468

/-- Civil date of a day number. -/
def civilFromDays (z0 : Int) : Int × Int × Int :=
  let z := z0 + 719468
  let era := Int.fdiv z 146097
  let doe := z - era * 146097
  let yoe := (doe - doe / 1460 + doe / 36524 - doe / 146096) / 365
  let y := yoe + era * 400
  let doy := doe - (365 * yoe + yoe / 4 - yoe / 100)
  let mp := (5 * doy + 2) / 153
  let d := doy - (153 * mp + 2) / 5 + 1
  let m := mp + (if mp < 10 then 3 else -9)
  (if m ≤ 2 then y + 1 else y, m, d)

/-- `dt.astimezone(timezone.utc)` after the naive-means-UTC policy of
`to_iso8601`: a naive datetime first gets offset 0 via
`dt.replace(tzinfo=timezone.utc)`.  When the offset is zero,
`astimezone` leaves the civil fields unchanged, so only nonzero offsets
shift the instant. -/
def shiftToUTC (dt : PyDateTime) : PyDateTime :=
  let off := dt.tzMin.getD 0
  if off = 0 then { dt with tzMin := some 0 }
  else
    let total : Int :=
      daysFromCivil (dt.year : Int) (dt.month : Int) (dt.day : Int) * 86400
        + ((dt.hour : Int) * 3600 + (dt.minute : Int) * 60 + (dt.second : Int)) - off * 60
    let days := Int.fdiv total 86400
    let rem := (total - days * 86400).toNat
    let c := civilFromDays days
    { year := c.1.toNat, month := c.2.1.toNat, day := c.2.2.toNat,
      hour := rem / 3600, minute := rem % 3600 / 60, second := rem % 60,
      tzMin := some 0 }

/-- Zero-padded decimal rendering of width 2. -/
def pad2 (n : Nat) : String := if n < 10 then "0" ++ toString n else toString n

/-- Zero-padded decimal rendering of width 4. -/
def pad4 (n : Nat) : String :=
  if n < 10 then "000" ++ toString n
  else if n < 100 then "00" ++ toString n
  else if n < 1000 then "0" ++ toString n
  else toString n

/-- `datetime.isoformat()` for whole-second datetimes, without the
offset suffix. -/
def fmtDT (dt : PyDateTime) : String :=
  pad4 dt.year ++ "-" ++ pad2 dt.month ++ "-" ++ pad2 dt.day ++ "T"
    ++ pad2 dt.hour ++ ":" ++ pad2 dt.minute ++ ":" ++ pad2 dt.second

/-- `to_iso8601` from normalize_readings.py: parse permissively, treat a
naive result as UTC, convert to UTC and format; `isoformat()` of a UTC
datetime ends in `+00:00`, which `.replace("+00:00","Z")` turns into a
trailing `Z` (no other substring of the rendering matches `+00:00`).
Unparseable input raises inside `dateparser.parse` and yields `None`. -/
def to_iso8601 (x : String) : Option String :=
  match parseDT x with
  | none => none
  | some dt => some (fmtDT (shiftToUTC dt) ++ "Z")

/-- The string ends with the character `Z`. -/
def endsInZ (s : String) : Bool := s.data.getLast? = some 'Z'

/-! ## Normalizer (`normalize_readings.py`)

A pandas cell is `Option String` (`none` = NaN/missing); a DataFrame is
a list of index/row pairs. -/

/-- A raw combined-table row before `normalize_and_clean`. -/
structure RawRow where
  artifact_id : Option String
  sdc_kind : Option String
  unit_label : Option String
  value : Option String
  timestamp : Option String
deriving DecidableEq

/-- A row after coercion: the three string columns are genuine strings
(`astype(str)` leaves no NaN behind), `value` and `timestamp` may carry
the missing marker. -/
structure NormRow where
  artifact_id : String
  sdc_kind : String
  unit_label : String
  value : Option ℚ
  timestamp : Option String
deriving DecidableEq

/-- `astype(str)` on a cell: pandas renders a missing value as the
string `"nan"` (a `None` from the JSON source renders as `"None"`;
either way the result is a non-empty string, which is all that matters
downstream). -/
def cellStr : Option String → String
  | none => "nan"
  | some s => s

/-- `pd.to_numeric(cell, errors="coerce")`. -/
def toNumeric : Option String → Option ℚ
  | none => none
  | some s => parseFloatQ s

/-- `UNIT_MAP` from normalize_readings.py lines 120-126, in source
order (the dict has no duplicate keys). -/
def unitMapPairs : List (String × String) :=
  [("celsius", "C"), ("°c", "C"), ("C", "C"), ("kilogram", "kg"), ("KG", "kg"),
   ("meter", "m"), ("M", "m"), ("m", "m"), ("fahrenheit", "F"), ("f", "F"), ("°f", "F"),
   ("kilopascal", "kPa"), ("KPA", "kPa"), ("kpa", "kPa"), ("kPa", "kPa"),
   ("voltage", "V"), ("v", "V"), ("V", "V"), ("ohm", "Ω"), ("omega", "Ω"), ("Ω", "Ω"),
   ("volt", "V"), ("psi", "psi")]

/-- `df["unit_label"].str.lower().map(UNIT_MAP).fillna(df["unit_label"])`:
look up the lower-cased token; on a miss the original token passes
through unchanged. -/
def mapUnitLabel (u : String) : String :=
  (unitMapPairs.lookup (pyLower u)).getD u

/-- The column coercions of `normalize_and_clean` (lines 109-127)
applied to one row: strip the string columns, coerce `value`
numerically, standardize `timestamp` (applied to `str(cell)` as
`to_iso8601` does), and canonicalize the unit token. -/
def coerceRow (r : RawRow) : NormRow :=
  { artifact_id := pyStrip (cellStr r.artifact_id)
    sdc_kind := pyStrip (cellStr r.sdc_kind)
    unit_label := mapUnitLabel (pyStrip (cellStr r.unit_label))
    value := toNumeric r.value
    timestamp := to_iso8601 (cellStr r.timestamp) }

/-- `dropna(subset=[...])`: after coercion the three string columns can
never be NaN, so only `value` and `timestamp` can drop a row. -/
def keepRow (r : NormRow) : Bool := r.value.isSome && r.timestamp.isSome

/-- The `sort_values(["artifact_id", "timestamp"])` key order: primary
key `artifact_id`, secondary key `timestamp`, each ascending under
Python's code-point string comparison (every kept row has a `some`
timestamp, so comparing through `getD` is exact). -/
def rowKeyLe (a b : NormRow) : Prop :=
  (strLeB a.artifact_id b.artifact_id
     && (a.artifact_id ≠ b.artifact_id || strLeB (a.timestamp.getD "") (b.timestamp.getD ""))) = true

instance : DecidableRel rowKeyLe := fun a b => by unfold rowKeyLe; infer_instance

/-- The sort relation lifted to indexed rows (pandas sorts by the named
columns only; the index travels with its row). -/
def pairKeyLe (a b : Nat × NormRow) : Prop := rowKeyLe a.2 b.2

instance : DecidableRel pairKeyLe := fun a b => by unfold pairKeyLe; infer_instance

/-- `reset_index(drop=True)`: replace the surviving indices by
0,1,2,.... -/
def resetIndex (l : List (Nat × NormRow)) : List (Nat × NormRow) :=
  (l.map Prod.snd).enum

/-- `normalize_and_clean` (lines 105-151): coerce all columns, drop
rows with a missing critical value, sort by (artifact_id, timestamp)
and renumber the index.  (pandas' unstable quicksort fixes no tie
order; insertion sort realizes one admissible outcome.) -/
def normalize_and_clean (df : List (Nat × RawRow)) : List (Nat × NormRow) :=
  let coerced := df.map (fun p => (p.1, coerceRow p.2))
  let kept := coerced.filter (fun p => keepRow p.2)
  resetIndex (List.insertionSort pairKeyLe kept)

/-- The combined frame that `main` hands to `normalize_and_clean`:
either the five-column concatenation of the loaded tables, or the
column-less empty frame that `pd.concat` of three bare
`pd.DataFrame()`s produces on the missing-file path (a bare
`pd.DataFrame()` has no columns at all). -/
inductive CombinedFrame where
  | withColumns : List (Nat × RawRow) → CombinedFrame
  | noColumns : CombinedFrame

/-- Running `normalize_and_clean` including its failure mode: its first
statement evaluates `df["artifact_id"]`, which on a frame without the
canonical columns raises `KeyError('artifact_id')`, aborting the stage;
on a five-column frame it returns the cleaned table. -/
def normalize_and_clean_run : CombinedFrame → Except String (List (Nat × NormRow))
  | CombinedFrame.withColumns df => Except.ok (normalize_and_clean df)
  | CombinedFrame.noColumns => Except.error "KeyError: artifact_id"

/-- `main` (lines 153-190), beyond file I/O: if any of the three input
files is missing, an error message (not naming which file) is printed
and all three DataFrames are replaced by bare `pd.DataFrame()`s, so the
`pd.concat(..., ignore_index=True)` result is a column-less empty frame
and `normalize_and_clean` raises an uncaught `KeyError('artifact_id')`
— the stage aborts and writes no output.  Otherwise the three loaded
five-column tables are concatenated with a fresh 0-based index and
normalized. -/
def mainNormalizer (existsA existsB existsC : Bool)
    (dfA dfB dfC : List RawRow) : Except String (List (Nat × NormRow)) :=
  if existsA = false ∨ existsB = false ∨ existsC = false then
    normalize_and_clean_run CombinedFrame.noColumns
  else
    normalize_and_clean_run (CombinedFrame.withColumns (List.enum (dfA ++ dfB ++ dfC)))

/-! ## Graph Builder (`measure_rdflib.py`)

The module references several names that do not resolve as written
(`NS_cco`, `NS_obo`, `ex`, `exc`, `exprop`, `CSV_PATH`,
`DATATYPE_PROPERTY_DEFS`), and lines 150-159 and 375 are not even
syntactically valid Python, so the script cannot run at all.  The
embedding below models the evident intent of its row-emission loop
(lines 283-354), resolving the case-mismatched names to `NS_CCO`,
`NS_OBO`, `NS_EX`, `NS_EXC`, `NS_EXPROP`. -/

/-- An RDF node: IRI, typed literal (lexical form, datatype IRI), or
language-tagged literal. -/
inductive Node where
  | iri : String → Node
  | lit : String → String → Node
  | langlit : String → String → Node
deriving DecidableEq

/-- A subject/predicate/object triple. -/
abbrev Triple := Node × Node × Node

/-- An rdflib `Graph`, as the list of added triples (rdflib graphs are
sets; every property we check is invariant under duplication). -/
abbrev RDFGraph := List Triple

def nsEX : String := "http://example.org/measurement/"

def nsCCO : String := "https://www.commoncoreontologies.org/CommonCoreOntologiesMerged/"

def nsOBO : String := "http://purl.obolibrary.org/obo/"

def nsEXC : String := "http://example.org/classes#"

def nsEXPROP : String := "http://example.org/props#"

def rdfTypeIRI : String := "http://www.w3.org/1999/02/22-rdf-syntax-ns#type"

def rdfsLabelIRI : String := "http://www.w3.org/2000/01/rdf-schema#label"

def rdfsCommentIRI : String := "http://www.w3.org/2000/01/rdf-schema#comment"

def rdfsSubClassOfIRI : String := "http://www.w3.org/2000/01/rdf-schema#subClassOf"

def owlClassIRI : String := "http://www.w3.org/2002/07/owl#Class"

def owlObjectPropIRI : String := "http://www.w3.org/2002/07/owl#ObjectProperty"

def owlDatatypePropIRI : String := "http://www.w3.org/2002/07/owl#DatatypeProperty"

def owlOntologyIRI : String := "http://www.w3.org/2002/07/owl#Ontology"

def xsdDecimalIRI : String := "http://www.w3.org/2001/XMLSchema#decimal"

def xsdDateTimeIRI : String := "http://www.w3.org/2001/XMLSchema#dateTime"

/-- `article_for` (line 97). -/
def articleFor (s : String) : String :=
  match (pyLower s).data with
  | c :: _ => if c = 'a' ∨ c = 'e' ∨ c = 'i' ∨ c = 'o' ∨ c = 'u' then "An" else "A"
  | [] => "A"

/-- Lower-case ASCII letters and digits, the class `[a-z0-9]`. -/
def isLowerAlnum (c : Char) : Bool := ('a' ≤ c && c ≤ 'z') || c.isDigit

/-- ASCII upper-casing for `str.title()`. -/
def upperChar (c : Char) : Char :=
  if 'a' ≤ c ∧ c ≤ 'z' then Char.ofNat (c.toNat - 32) else c

/-- Python `str.title()`: a letter is upper-cased iff the previous
character was not a letter (ASCII repertoire). -/
def titleChars : Bool → List Char → List Char
  | _, [] => []
  | prevAlpha, c :: cs =>
      (if c.isAlpha then (if prevAlpha then lowerChar c else upperChar c) else c)
        :: titleChars c.isAlpha cs

/-- Python `str.title()`. -/
def pyTitle (s : String) : String := ⟨titleChars false s.data⟩

/-- `KIND_ALIASES` (lines 172-178), in source (insertion) order. -/
def kindAliases : List (String × List String) :=
  [("Temperature", ["temperature", "temp", "tmp", "t", "degc", "degf", "c", "f"]),
   ("Pressure", ["pressure", "press", "psi", "bar", "pa", "kpa"]),
   ("Humidity", ["humidity", "rh", "rel humidity", "relative humidity"]),
   ("Resistance", ["resistance", "res", "ohm", "ohms", "ω", "r"]),
   ("Voltage", ["voltage", "volt", "volts", "v"])]

/-- `QUALITIES_FOR_CLASSING` (line 179). -/
def qualitiesForClassing : List String := ["Pressure", "Temperature", "Resistance", "Voltage"]

/-- `canonicalize_kind` (lines 181-188): lower and strip, replace runs
outside `[a-z0-9]` by one space and strip again, look the result up in
the alias table; on a miss fall back to `base.title()` (or `"Unknown"`
for an empty base).  Returns (canonical label, its slug). -/
def canonicalize_kind (raw : String) : String × String :=
  let base0 := pyLower (pyStrip raw)
  let base : String :=
    ⟨trimBy isPySpace (collapseRun ' '
        (base0.data.map (fun c => if isLowerAlnum c then c else ' ')))⟩
  match kindAliases.find? (fun p => base ∈ p.2) with
  | some p => (p.1, slug (pyLower p.1))
  | none =>
      let canon := if base = "" then "Unknown" else pyTitle base
      (canon, slug (pyLower canon))

/-- `UNIT_ALIASES` (lines 190-198), in source (insertion) order. -/
def unitAliases : List (String × List String) :=
  [("c", ["c", "degc", "celsius", "°c"]),
   ("f", ["f", "degf", "fahrenheit", "°f"]),
   ("pa", ["pa", "pascal"]),
   ("kpa", ["kpa", "kilopascal", "kilopascals"]),
   ("psi", ["psi"]),
   ("volt", ["v", "volt", "volts"]),
   ("ohm", ["ohm", "ohms", "ω", "omega"])]

/-- `re.sub(r"[^a-z0-9]+", "", s)`. -/
def stripNonLowerAlnum (s : String) : String := ⟨s.data.filter isLowerAlnum⟩

/-- `_normalize_unit_token` (lines 200-210). -/
def normalize_unit_token (uRaw : String) : String :=
  let base := pyLower (pyStrip uRaw)
  match (if base ≠ "" then unitAliases.find? (fun p => base ∈ p.2) else none) with
  | some p => p.1
  | none =>
      let base2 := stripNonLowerAlnum base
      match unitAliases.find? (fun p => base2 ∈ p.2.map stripNonLowerAlnum) with
      | some p => p.1
      | none => if base2 = "" then "na" else base2

/-- `resolve_unit_and_value` (lines 212-229): canonical unit token to
(unit IRI, possibly rescaled value, CCO-unit flag); kilopascals are
rescaled to pascals by `value_in * 1000.0` (exact on rationals). -/
def resolve_unit_and_value (unitRaw : String) (valueIn : ℚ) : String × ℚ × Bool :=
  let canon := normalize_unit_token unitRaw
  if canon = "c" then (nsCCO ++ "ont00001606", valueIn, true)
  else if canon = "f" then (nsCCO ++ "ont00001724", valueIn, true)
  else if canon = "kpa" then (nsCCO ++ "ont00001559", valueIn * 1000, true)
  else if canon = "pa" then (nsCCO ++ "ont00001559", valueIn, true)
  else if canon = "psi" then (nsCCO ++ "ont00001694", valueIn, true)
  else if canon = "volt" then (nsCCO ++ "ont00001450", valueIn, true)
  else if canon = "ohm" then (nsEX ++ "ohm", valueIn, false)
  else (nsEX ++ slug unitRaw, valueIn, false)

/-- The identifier generation for Artifact nodes (lines 284, 296-301):
strip, replace spaces by dashes, slug. -/
def artifactSlugOf (artifactId : String) : String :=
  slug (replaceSpaceDash (pyStrip artifactId))

/-- The Artifact IRI derived from an `artifact_id` field value. -/
def artifactUriOf (artifactId : String) : String := nsEX ++ artifactSlugOf artifactId

/-- rdflib's lexical form for a `Literal` with datatype `xsd:decimal`
built from a value whose decimal expansion terminates: the shortest
decimal rendering (used only at concrete inputs). -/
def fmtDec (q : ℚ) : String :=
  match (List.range 40).find? (fun k => (q * (10 : ℚ) ^ k).den = 1) with
  | none => toString q.num ++ "/" ++ toString q.den
  | some 0 => toString q.num
  | some (k + 1) =>
      let n := (q * (10 : ℚ) ^ (k + 1)).num
      let ds := toString n.natAbs
      let ds := if ds.length ≤ k + 1 then ⟨List.replicate (k + 2 - ds.length) '0'⟩ ++ ds else ds
      let m := ds.length - (k + 1)
      (if n < 0 then "-" else "") ++ ⟨ds.data.take m⟩ ++ "." ++ ⟨ds.data.drop m⟩

/-- A row of the canonical CSV as the Graph Builder reads it
(`pd.read_csv`, all cells as strings; `value` is parsed per-row with
`float`). -/
structure CsvRow where
  artifact_id : String
  sdc_kind : String
  unit_label : String
  value : String
  timestamp : String
deriving DecidableEq

/-- The triples added for one row by the emission loop (lines 283-354).
Rows with an empty required string or an unparseable value are skipped
(`continue`).  `reading_cache` / `quality_class_cache` only suppress
re-adding triples already present; since an rdflib `Graph` is a set,
the resulting graph is the same without them. -/
def rowTriples (r : CsvRow) : RDFGraph :=
  let aRaw := pyStrip r.artifact_id
  let kRaw := pyStrip r.sdc_kind
  let uRaw := pyStrip r.unit_label
  let tRaw := pyStrip r.timestamp
  if aRaw = "" ∨ kRaw = "" ∨ uRaw = "" ∨ tRaw = "" then []
  else
    match parseFloatQ r.value with
    | none => []
    | some value =>
        let artifactLabel := replaceSpaceDash aRaw
        let aSlug := slug artifactLabel
        let ck := canonicalize_kind kRaw
        let tsSlug := slug tRaw
        let artifactUri := Node.iri (nsEX ++ aSlug)
        let qual : Option String × RDFGraph :=
          if ck.1 ∈ qualitiesForClassing then
            if ck.1 = "Temperature" then
              (some (nsCCO ++ "ont00000441"),
               [(Node.iri (nsCCO ++ "ont00000441"), Node.iri rdfTypeIRI, Node.iri owlClassIRI),
                (Node.iri (nsCCO ++ "ont00000441"), Node.iri rdfsLabelIRI,
                 Node.langlit "Temperature" "en")])
            else
              let qUri := nsEXC ++ ck.2
              (some qUri,
               [(Node.iri qUri, Node.iri rdfTypeIRI, Node.iri owlClassIRI),
                (Node.iri qUri, Node.iri rdfsSubClassOfIRI, Node.iri (nsOBO ++ "BFO_0000020")),
                (Node.iri qUri, Node.iri rdfsLabelIRI, Node.langlit ck.1 "en"),
                (Node.iri qUri, Node.iri rdfsCommentIRI,
                 Node.langlit (articleFor ck.1 ++ " " ++ ck.1 ++
                   " is a Specifically Dependent Continuant quality that can inhere in a material entity and is typically subject to measurement.") "en")])
          else (none, [])
        let readingUri := Node.iri (nsEX ++ aSlug ++ "_" ++ ck.2 ++ "_" ++ tsSlug)
        let ru := resolve_unit_and_value uRaw value
        let unitUri := Node.iri ru.1
        let miceUri := Node.iri (nsEX ++ "MICE_" ++ aSlug ++ "_" ++ ck.2 ++ "_" ++ tsSlug)
        [(artifactUri, Node.iri rdfTypeIRI, Node.iri (nsCCO ++ "ont00000995")),
         (artifactUri, Node.iri rdfsLabelIRI, Node.langlit artifactLabel "en")]
        ++ qual.2
        ++ [(readingUri, Node.iri rdfTypeIRI, Node.iri (nsOBO ++ "BFO_0000020"))]
        ++ (match qual.1 with
            | some q => [(readingUri, Node.iri rdfTypeIRI, Node.iri q)]
            | none => [])
        ++ [(readingUri, Node.iri rdfsLabelIRI,
             Node.langlit (artifactLabel ++ "_" ++ ck.1 ++ " @ " ++ tRaw) "en"),
            (readingUri, Node.iri (nsOBO ++ "BFO_0000197"), artifactUri),
            (unitUri, Node.iri rdfTypeIRI, Node.iri (nsCCO ++ "ont00000120"))]
        ++ (if ru.2.2 = false then [(unitUri, Node.iri rdfsLabelIRI, Node.langlit uRaw "en")] else [])
        ++ [(miceUri, Node.iri rdfTypeIRI, Node.iri (nsCCO ++ "ont00001163")),
            (miceUri, Node.iri rdfsLabelIRI,
             Node.langlit ("MICE for " ++ artifactLabel ++ "_" ++ ck.1 ++ " @ " ++ tRaw) "en"),
            (miceUri, Node.iri (nsCCO ++ "ont00001769"), Node.lit (fmtDec ru.2.1) xsdDecimalIRI),
            (miceUri, Node.iri (nsCCO ++ "ont00001863"), unitUri),
            (readingUri, Node.iri (nsCCO ++ "ont00001863"), unitUri),
            (miceUri, Node.iri (nsCCO ++ "ont00001966"), readingUri),
            (readingUri, Node.iri (nsCCO ++ "ont00001904"), miceUri),
            (miceUri, Node.iri (nsEXPROP ++ "hasTimestamp"), Node.lit tRaw xsdDateTimeIRI)]

/-- The `rdf:type` triples added by the module prelude (lines 53-54,
252-257, 261-266).  Its remaining triples use only the predicates
`rdfs:label`, `rdfs:comment` and `owl:inverseOf`, which no validator
query ever matches, so they are omitted without affecting any check
outcome. -/
def preludeTypeTriples : RDFGraph :=
  [(Node.iri "http://example.org/ontology", Node.iri rdfTypeIRI, Node.iri owlOntologyIRI)]
  ++ ([nsCCO ++ "ont00000441", nsCCO ++ "ont00000995", nsOBO ++ "BFO_0000020",
       nsCCO ++ "ont00001163", nsCCO ++ "ont00000120", nsOBO ++ "BFO_0000040",
       nsOBO ++ "BFO_0000031"].map
        (fun c => (Node.iri c, Node.iri rdfTypeIRI, Node.iri owlClassIRI)))
  ++ ([nsOBO ++ "BFO_0000197", nsOBO ++ "BFO_0000196", nsCCO ++ "ont00001966",
       nsCCO ++ "ont00001904", nsCCO ++ "ont00001863", nsCCO ++ "ont00001961"].map
        (fun p => (Node.iri p, Node.iri rdfTypeIRI, Node.iri owlObjectPropIRI)))
  ++ ([nsCCO ++ "ont00001769", nsEXPROP ++ "hasTimestamp"].map
        (fun p => (Node.iri p, Node.iri rdfTypeIRI, Node.iri owlDatatypePropIRI)))
  ++ ([nsOBO ++ "BFO_0000020", nsOBO ++ "BFO_0000031", nsOBO ++ "BFO_0000040"].map
        (fun c => (Node.iri c, Node.iri rdfTypeIRI, Node.iri owlClassIRI)))
  ++ ([nsOBO ++ "BFO_0000196", nsCCO ++ "ont00001904", nsCCO ++ "ont00001966",
       nsCCO ++ "ont00001961"].map
        (fun p => (Node.iri p, Node.iri rdfTypeIRI, Node.iri owlObjectPropIRI)))

/-- The graph produced for a list of canonical rows: prelude plus the
per-row emissions. -/
def buildGraph (rows : List CsvRow) : RDFGraph :=
  preludeTypeTriples ++ rows.flatMap rowTriples

/-! ## Validator (`run_sparql_qc.py` and `qc_fix.py`)

Both scripts enforce the same exact IRIs (their lines 23-31). -/

def IRI_SDC : String := "http://purl.obolibrary.org/obo/BFO_0000020"

def IRI_ART : String := "https://www.commoncoreontologies.org/ont00000995"

def IRI_MU : String := "https://www.commoncoreontologies.org/ont00000120"

def IRI_MICE : String := "https://www.commoncoreontologies.org/ont00001163"

def IRI_BEARER_OF : String := "http://purl.obolibrary.org/obo/BFO_0000196"

def IRI_IS_MEASURE_OF : String := "https://www.commoncoreontologies.org/ont00001966"

def IRI_USES_MU : String := "https://www.commoncoreontologies.org/ont00001863"

/-- Membership of a triple in a graph, as a Boolean. -/
def hasTriple (g : RDFGraph) (s p o : Node) : Bool := decide ((s, p, o) ∈ g)

/-- The subjects of `?s a <c>` matches, one per matching triple. -/
def typedSubjects (g : RDFGraph) (c : String) : List Node :=
  g.filterMap (fun t =>
    if t.2.1 = Node.iri rdfTypeIRI ∧ t.2.2 = Node.iri c then some t.1 else none)

/-- `COUNT(DISTINCT ?x)` over `?x a <c>`. -/
def countDistinctTyped (g : RDFGraph) (c : String) : Nat :=
  (typedSubjects g c).dedup.length

/-- Check 1, `q_types`: each of the four classes has at least one
instance (subject typed with the exact class IRI). -/
def checkTypes (g : RDFGraph) : Bool :=
  decide (0 < countDistinctTyped g IRI_ART) && decide (0 < countDistinctTyped g IRI_SDC)
    && decide (0 < countDistinctTyped g IRI_MICE) && decide (0 < countDistinctTyped g IRI_MU)

/-- Check 2, `q_pattern_strict` (ASK): some Artifact is linked by
`bearer_of` to a typed SDC node, and some MICE is linked to that SDC by
`is_measure_of` and to a typed MU by `uses_measurement_unit`.  The
candidates are enumerated from the graph's own triples, which is
exhaustive. -/
def checkPattern (g : RDFGraph) : Bool :=
  g.any (fun t1 =>
    decide (t1.2.1 = Node.iri IRI_BEARER_OF)
    && hasTriple g t1.1 (Node.iri rdfTypeIRI) (Node.iri IRI_ART)
    && hasTriple g t1.2.2 (Node.iri rdfTypeIRI) (Node.iri IRI_SDC)
    && g.any (fun t2 =>
        decide (t2.2.1 = Node.iri IRI_IS_MEASURE_OF) && decide (t2.2.2 = t1.2.2)
        && hasTriple g t2.1 (Node.iri rdfTypeIRI) (Node.iri IRI_MICE)
        && g.any (fun t3 =>
            decide (t3.1 = t2.1) && decide (t3.2.1 = Node.iri IRI_USES_MU)
            && hasTriple g t3.2.2 (Node.iri rdfTypeIRI) (Node.iri IRI_MU))))

/-- `FILTER NOT EXISTS { ?m <is_measure_of> ?sdc . ?sdc a <SDC> }`,
negated: does `m` have a valid measure-of link? -/
def hasMeasureLink (g : RDFGraph) (m : Node) : Bool :=
  g.any (fun t =>
    decide (t.1 = m) && decide (t.2.1 = Node.iri IRI_IS_MEASURE_OF)
      && hasTriple g t.2.2 (Node.iri rdfTypeIRI) (Node.iri IRI_SDC))

/-- Valid `uses_measurement_unit` link to a typed MU node. -/
def hasUnitLink (g : RDFGraph) (m : Node) : Bool :=
  g.any (fun t =>
    decide (t.1 = m) && decide (t.2.1 = Node.iri IRI_USES_MU)
      && hasTriple g t.2.2 (Node.iri rdfTypeIRI) (Node.iri IRI_MU))

/-- Solutions of the first UNION branch / of `q_missing_measure_of`:
MICE-typed subjects lacking a valid measure-of link. -/
def badMeasureBranch (g : RDFGraph) : List Node :=
  (typedSubjects g IRI_MICE).filter (fun m => ! hasMeasureLink g m)

/-- Solutions of the second UNION branch / of `q_missing_unit`. -/
def badUnitBranch (g : RDFGraph) : List Node :=
  (typedSubjects g IRI_MICE).filter (fun m => ! hasUnitLink g m)

/-- run_sparql_qc.py check 3 (`q_all_mice_ok`, lines 70-87):
`COUNT(DISTINCT ?m)` over the UNION of the two branches. -/
def n_bad (g : RDFGraph) : Nat := (badMeasureBranch g ++ badUnitBranch g).dedup.length

/-- qc_fix.py check 3 (lines 58-78): the two branches run as separate
`SELECT DISTINCT` queries whose results are combined by Python `set`
union. -/
def bad_mice (g : RDFGraph) : Finset Node :=
  (badMeasureBranch g).toFinset ∪ (badUnitBranch g).toFinset

/-- Check 3 of run_sparql_qc.py: no bad MICE. -/
def checkComplete (g : RDFGraph) : Bool := decide (n_bad g = 0)

/-- All three checks of the Validator. -/
def checksPass (g : RDFGraph) : Bool := checkTypes g && checkPattern g && checkComplete g

/-- The Validator's exit status (run_sparql_qc.py).  The `try` block
(lines 12-21) turns a missing Turtle file into `sys.exit(2)` and a load
error into `sys.exit(1)`.  The three check `assert`s (lines 48, 65, 88)
execute outside any `try`, so a failure raises an uncaught
`AssertionError` and CPython terminates with exit status 1.  A full
pass reaches `sys.exit(0)`. -/
def validatorExit (ttlFileExists : Bool) (parsed : Option RDFGraph) : Nat :=
  if ttlFileExists = false then 2
  else
    match parsed with
    | none => 1
    | some g => if checksPass g then 0 else 1

/-! ## Sample rows for concrete scenarios -/

/-- A raw row whose `artifact_id` is whitespace-only but whose other
fields all coerce successfully. -/
def blankIdRow : RawRow :=
  { artifact_id := some "   ", sdc_kind := some "temperature", unit_label := some "celsius",
    value := some "98.6", timestamp := some "2024-01-01T00:00:00Z" }

/-- The end-to-end scenario row of the specification, as a raw input
row. -/
def boilerRawRow : RawRow :=
  { artifact_id := some "Boiler-07", sdc_kind := some "temperature",
    unit_label := some "celsius", value := some "98.6",
    timestamp := some "2024-01-01T00:00:00Z" }

/-- The end-to-end scenario row of the specification, as a canonical
CSV row read by the Graph Builder. -/
def boilerCsvRow : CsvRow :=
  { artifact_id := "Boiler-07", sdc_kind := "temperature", unit_label := "celsius",
    value := "98.6", timestamp := "2024-01-01T00:00:00Z" }

/-! ## Order facts for the sort relation -/

theorem charToNat_inj {a b : Char} (h : a.toNat = b.toNat) : a = b :=
  Char.ext (UInt32.ext h)

theorem charLt_trans {a b c : Char} (h1 : charLt a b = true) (h2 : charLt b c = true) :
    charLt a c = true := by
  simp only [charLt, decide_eq_true_eq] at *
  omega

theorem charLt_total {a b : Char} (h : a ≠ b) : charLt a b = true ∨ charLt b a = true := by
  simp only [charLt, decide_eq_true_eq]
  rcases Nat.lt_trichotomy a.toNat b.toNat with h' | h' | h'
  · exact Or.inl h'
  · exact absurd (charToNat_inj h') h
  · exact Or.inr h'

theorem charLt_irrefl (a : Char) : charLt a a = false := by
  simp [charLt]

theorem strLtB_trans : ∀ {l m n : List Char},
    strLtB l m = true → strLtB m n = true → strLtB l n = true
  | [], [], _, h1, _ => by cases h1
  | [], _ :: _, [], _, h2 => by cases h2
  | [], _ :: _, _ :: _, _, _ => rfl
  | _ :: _, [], _, h1, _ => by cases h1
  | _ :: _, _ :: _, [], _, h2 => by cases h2
  | a :: as, b :: bs, c :: cs, h1, h2 => by
      simp only [strLtB] at *
      by_cases hab : a = b
      · subst hab
        simp only [if_pos rfl] at h1
        by_cases hbc : a = c
        · subst hbc
          simp only [if_pos rfl] at h2 ⊢
          exact strLtB_trans h1 h2
        · simp only [if_neg hbc] at h2 ⊢
          exact h2
      · simp only [if_neg hab] at h1
        by_cases hbc : b = c
        · subst hbc
          simp only [if_neg hab]
          exact h1
        · simp only [if_neg hbc] at h2
          have hac : a ≠ c := by
            intro h
            subst h
            have := charLt_trans h1 h2
            rw [charLt_irrefl] at this
            cases this
          simp only [if_neg hac]
          exact charLt_trans h1 h2

theorem strLtB_total : ∀ {l m : List Char}, l ≠ m → strLtB l m = true ∨ strLtB m l = true
  | [], [], h => absurd rfl h
  | [], _ :: _, _ => Or.inl rfl
  | _ :: _, [], _ => Or.inr rfl
  | a :: as, b :: bs, h => by
      by_cases hab : a = b
      · subst hab
        have : as ≠ bs := by
          intro h'
          exact h (by rw [h'])
        rcases strLtB_total this with h' | h'
        · exact Or.inl (by simp [strLtB, h'])
        · exact Or.inr (by simp [strLtB, h'])
      · rcases charLt_total hab with h' | h'
        · exact Or.inl (by simp [strLtB, if_neg hab, h'])
        · exact Or.inr (by simp [strLtB, if_neg (Ne.symm hab), h'])

theorem strLtB_irrefl : ∀ (l : List Char), strLtB l l = false
  | [] => rfl
  | a :: as => by simp [strLtB, strLtB_irrefl as]

theorem strLtB_asymm {l m : List Char} (h : strLtB l m = true) : strLtB m l = false := by
  by_contra h'
  have h2 : strLtB m l = true := by
    cases hml : strLtB m l
    · exact absurd hml h'
    · rfl
  have := strLtB_trans h h2
  rw [strLtB_irrefl] at this
  cases this

theorem strLeB_refl (a : String) : strLeB a a = true := by simp [strLeB]

theorem strLeB_total (a b : String) : strLeB a b = true ∨ strLeB b a = true := by
  by_cases h : a = b
  · exact Or.inl (by simp [strLeB, h])
  · have hd : a.data ≠ b.data := fun h' => h (String.ext h')
    rcases strLtB_total hd with h' | h'
    · exact Or.inl (by simp [strLeB, h'])
    · exact Or.inr (by simp [strLeB, h'])

theorem strLeB_trans {a b c : String} (h1 : strLeB a b = true) (h2 : strLeB b c = true) :
    strLeB a c = true := by
  simp only [strLeB, Bool.or_eq_true, decide_eq_true_eq] at *
  rcases h1 with h1 | h1
  · subst h1; exact h2
  · rcases h2 with h2 | h2
    · subst h2; exact Or.inr h1
    · exact Or.inr (strLtB_trans h1 h2)

theorem strLeB_antisymm {a b : String} (h1 : strLeB a b = true) (h2 : strLeB b a = true) :
    a = b := by
  simp only [strLeB, Bool.or_eq_true, decide_eq_true_eq] at *
  rcases h1 with h1 | h1
  · exact h1
  · rcases h2 with h2 | h2
    · exact h2.symm
    · rw [strLtB_asymm h1] at h2; cases h2

instance : IsTotal (Nat × NormRow) pairKeyLe := by
  constructor
  intro a b
  simp only [pairKeyLe, rowKeyLe, Bool.and_eq_true, Bool.or_eq_true, decide_eq_true_eq]
  by_cases h : a.2.artifact_id = b.2.artifact_id
  · rcases strLeB_total (a.2.timestamp.getD "") (b.2.timestamp.getD "") with h' | h'
    · exact Or.inl ⟨by rw [h]; exact strLeB_refl _, Or.inr h'⟩
    · exact Or.inr ⟨by rw [h]; exact strLeB_refl _, Or.inr h'⟩
  · rcases strLeB_total a.2.artifact_id b.2.artifact_id with h' | h'
    · exact Or.inl ⟨h', Or.inl h⟩
    · exact Or.inr ⟨h', Or.inl (Ne.symm h)⟩

instance : IsTrans (Nat × NormRow) pairKeyLe := by
  constructor
  intro a b c h1 h2
  simp only [pairKeyLe, rowKeyLe, Bool.and_eq_true, Bool.or_eq_true, decide_eq_true_eq] at *
  obtain ⟨hab, hab2⟩ := h1
  obtain ⟨hbc, hbc2⟩ := h2
  refine ⟨strLeB_trans hab hbc, ?_⟩
  by_cases hac : a.2.artifact_id = c.2.artifact_id
  · have hba : a.2.artifact_id = b.2.artifact_id :=
      strLeB_antisymm hab (by rw [hac]; exact hbc)
    have hcb : b.2.artifact_id = c.2.artifact_id := by rw [← hba, hac]
    rcases hab2 with h' | h'
    · exact absurd hba h'
    · rcases hbc2 with h'' | h''
      · exact absurd hcb h''
      · exact Or.inr (strLeB_trans h' h'')
  · exact Or.inl hac

/-! ## Generic list helpers -/

theorem mem_of_mem_enumFrom {α : Type} {x : Nat × α} :
    ∀ (n : Nat) (l : List α), x ∈ l.enumFrom n → x.2 ∈ l := by
  intro n l
  induction l generalizing n with
  | nil => intro h; cases h
  | cons a t ih =>
    simp only [List.enumFrom, List.mem_cons]
    rintro (h | h)
    · exact Or.inl (congrArg Prod.snd h)
    · exact Or.inr (ih _ h)

theorem mem_of_mem_enum {α : Type} {x : Nat × α} {l : List α} (h : x ∈ l.enum) : x.2 ∈ l :=
  mem_of_mem_enumFrom 0 l h

theorem lookup_snd_mem {α : Type} [DecidableEq α] {β : Type} :
    ∀ (l : List (α × β)) (k : α) (v : β), l.lookup k = some v → v ∈ l.map Prod.snd := by
  intro l
  induction l with
  | nil => intro k v h; cases h
  | cons p t ih =>
    intro k v h
    rw [List.lookup] at h
    simp only [List.map_cons, List.mem_cons]
    by_cases hk : k = p.1
    · rw [show (k == p.1) = true from beq_iff_eq.mpr hk] at h
      exact Or.inl (Option.some.inj h).symm
    · rw [show (k == p.1) = false from beq_eq_false_iff_ne.mpr hk] at h
      exact Or.inr (ih k v h)

/-- Appending the one-character string `"Z"` makes the last character
`Z`. -/
theorem endsInZ_append (s : String) : endsInZ (s ++ "Z") = true := by
  have h : (s ++ "Z").data = s.data ++ ['Z'] := rfl
  simp only [endsInZ, h, List.getLast?_concat]
  rfl

/-- `fmtDT` reads only the civil fields, so overwriting the offset
changes nothing. -/
theorem fmtDT_set_tz (dt : PyDateTime) : fmtDT { dt with tzMin := some 0 } = fmtDT dt := rfl

/-! ## Claim theorems -/

/-- C6 (confirmed): for every timestamp input parseable by the
(modelled) permissive date parser, `to_iso8601` returns the UTC
ISO-8601 rendering of the parse result, a string ending in `Z`; a
timezone-less parse result is treated as already being UTC, i.e. its
civil fields are formatted unshifted; for every unparseable input it
returns the missing-value marker `none`. -/
theorem to_iso8601_utc_or_none (s : String) :
    (parseDT s = none → to_iso8601 s = none) ∧
    (∀ dt : PyDateTime, parseDT s = some dt →
      to_iso8601 s = some (fmtDT (shiftToUTC dt) ++ "Z") ∧
      endsInZ (fmtDT (shiftToUTC dt) ++ "Z") = true ∧
      (dt.tzMin = none → to_iso8601 s = some (fmtDT dt ++ "Z"))) := by
  constructor
  · intro h
    simp [to_iso8601, h]
  · intro dt h
    refine ⟨by simp [to_iso8601, h], endsInZ_append _, ?_⟩
    intro htz
    have hshift : shiftToUTC dt = { dt with tzMin := some 0 } := by
      simp [shiftToUTC, htz]
    simp [to_iso8601, h, hshift, fmtDT_set_tz]

/-- C6 witness: a timezone-carrying timestamp is shifted to UTC and a
date-only (naive) timestamp is kept as given, both rendered with a
trailing `Z`. -/
theorem to_iso8601_utc_or_none_witness :
    to_iso8601 "2024-01-01 12:30:00+02:00" = some "2024-01-01T10:30:00Z" ∧
    to_iso8601 "2024-01-31" = some "2024-01-31T00:00:00Z" := by
  constructor
  · exact (((to_iso8601_utc_or_none "2024-01-01 12:30:00+02:00").2
      ⟨2024, 1, 1, 12, 30, 0, some 120⟩ rfl).1).trans (by rfl)
  · exact ((((to_iso8601_utc_or_none "2024-01-31").2
      ⟨2024, 1, 31, 0, 0, 0, none⟩ rfl).2.2) rfl).trans (by rfl)

/-- C7 (confirmed): the normalizer's unit-alias map is idempotent — in
particular every token of its canonical image (C, kg, m, F, kPa, V, Ω,
psi) is left unchanged by a second application — tokens whose
lower-casing has no alias entry pass through unchanged, and each
canonical token of the graph builder's `_normalize_unit_token` is a
fixed point of that function as well. -/
theorem unit_alias_normalization_idempotent :
    (∀ u : String, mapUnitLabel (mapUnitLabel u) = mapUnitLabel u) ∧
    (∀ u : String, unitMapPairs.lookup (pyLower u) = none → mapUnitLabel u = u) ∧
    (∀ t ∈ (["c", "f", "pa", "kpa", "psi", "volt", "ohm"] : List String),
      normalize_unit_token t = t) := by
  refine ⟨?_, ?_, by decide⟩
  · intro u
    cases h : unitMapPairs.lookup (pyLower u) with
    | none =>
        have hu : mapUnitLabel u = u := by simp [mapUnitLabel, h]
        simp only [hu]
    | some v =>
        have hv : v ∈ unitMapPairs.map Prod.snd := lookup_snd_mem _ _ _ h
        have hm : mapUnitLabel u = v := by simp [mapUnitLabel, h]
        rw [hm]
        fin_cases hv <;> decide
  · intro u h
    simp [mapUnitLabel, h]

/-- C7 witness: the canonical tokens `C` and `kPa` are fixed by the
normalizer map (the lower-cased forms `c` is absent from, `kpa`
present in, the alias table), and `kpa` is fixed by
`_normalize_unit_token`. -/
theorem unit_alias_normalization_idempotent_witness :
    mapUnitLabel "C" = "C" ∧ normalize_unit_token "kpa" = "kpa" :=
  ⟨unit_alias_normalization_idempotent.2.1 "C" (by decide),
   unit_alias_normalization_idempotent.2.2 "kpa" (by decide)⟩

/-- C9 (confirmed): whenever the raw unit token canonicalizes to `kpa`,
`resolve_unit_and_value` returns the Pascal measurement-unit IRI with
the value multiplied by 1000; for tokens canonicalizing to `c`, `f`,
`pa`, `psi`, `volt` or `ohm` the value is returned unchanged. -/
theorem resolve_unit_kpa_rescales (u : String) (v : ℚ) :
    (normalize_unit_token u = "kpa" →
      resolve_unit_and_value u v = (nsCCO ++ "ont00001559", v * 1000, true)) ∧
    (normalize_unit_token u ∈ (["c", "f", "pa", "psi", "volt", "ohm"] : List String) →
      (resolve_unit_and_value u v).2.1 = v) := by
  constructor
  · intro h
    simp [resolve_unit_and_value, h]
  · intro h
    simp only [List.mem_cons, List.not_mem_nil, or_false] at h
    rcases h with h | h | h | h | h | h <;> simp [resolve_unit_and_value, h]

/-- C9 witness: `kPa` (canonicalizing to `kpa`) rescales 2 to 2000 with
the Pascal unit IRI; `V` (canonicalizing to `volt`) keeps its value. -/
theorem resolve_unit_kpa_rescales_witness :
    resolve_unit_and_value "kPa" 2 = (nsCCO ++ "ont00001559", 2 * 1000, true) ∧
    (resolve_unit_and_value "V" 7).2.1 = 7 :=
  ⟨(resolve_unit_kpa_rescales "kPa" 2).1 (by decide),
   (resolve_unit_kpa_rescales "V" 7).2 (by decide)⟩

/-- C10 (confirmed): on every parsed graph, the count produced by
run_sparql_qc.py's single UNION query with `COUNT(DISTINCT ?m)` equals
the size of the set built by qc_fix.py from two separate queries
combined by Python set union; consequently the two validator variants
accept exactly the same graphs in check 3. -/
theorem completeness_check_equivalence (g : RDFGraph) :
    n_bad g = (bad_mice g).card ∧ (checkComplete g = true ↔ (bad_mice g).card = 0) := by
  have h : n_bad g = (bad_mice g).card := by
    unfold n_bad bad_mice
    rw [← List.toFinset_append]
    rfl
  constructor
  · exact h
  · simp [checkComplete, h]

/-- C1 counterexample: a row whose `artifact_id` is whitespace-only (an
empty required string field after trimming) is NOT dropped by
`normalize_and_clean`; it survives into the output with an empty
`artifact_id`, refuting both "such rows are dropped" and "no emitted
row has an empty string field". -/
theorem normalizer_keeps_blank_artifact_row :
    (normalize_and_clean [(0, blankIdRow)]).map (fun p => p.2.artifact_id) = [""] ∧
    normalize_and_clean [(0, blankIdRow)] ≠ [] := by
  constructor
  · rfl
  · decide

/-- C1 (corrected): every row of the normalizer's output arises from an
input row via the column coercions, and its numeric value and timestamp
coercions succeeded (rows failing either are dropped before output).
String fields, however, are never dropped: `astype(str)` renders a
missing cell as the non-null string "nan" (or "None") and a
whitespace-only cell trims to the empty string, so `dropna` never sees
a missing string field. -/
theorem normalize_and_clean_row_provenance (df : List (Nat × RawRow)) (p : Nat × NormRow)
    (hp : p ∈ normalize_and_clean df) :
    ∃ q ∈ df, p.2 = coerceRow q.2 ∧ (coerceRow q.2).value.isSome = true ∧
      (coerceRow q.2).timestamp.isSome = true := by
  simp only [normalize_and_clean, resetIndex] at hp
  have h1 := mem_of_mem_enum hp
  rw [List.mem_map] at h1
  obtain ⟨pr, hpr, hsnd⟩ := h1
  have h2 : pr ∈ (df.map (fun q => (q.1, coerceRow q.2))).filter (fun q => keepRow q.2) :=
    (List.Perm.mem_iff (List.perm_insertionSort _ _)).mp hpr
  rw [List.mem_filter] at h2
  obtain ⟨h3, h4⟩ := h2
  rw [List.mem_map] at h3
  obtain ⟨q, hq, hqe⟩ := h3
  have hpr2 : pr.2 = coerceRow q.2 := by rw [← hqe]
  rw [hpr2, keepRow, Bool.and_eq_true] at h4
  exact ⟨q, hq, by rw [← hsnd, hpr2], h4.1, h4.2⟩

/-- C1 witness: the scenario row passes fully coerced through
`normalize_and_clean`. -/
theorem normalize_and_clean_row_provenance_witness :
    ∃ q ∈ [(0, boilerRawRow)], (0, coerceRow boilerRawRow).2 = coerceRow q.2 ∧
      (coerceRow q.2).value.isSome = true ∧ (coerceRow q.2).timestamp.isSome = true :=
  normalize_and_clean_row_provenance [(0, boilerRawRow)] (0, coerceRow boilerRawRow)
    (by rw [show normalize_and_clean [(0, boilerRawRow)] = [(0, coerceRow boilerRawRow)] from rfl]
        exact List.mem_singleton.mpr rfl)

/-- C8 (confirmed): the normalizer's output rows are sorted ascending
by the pair (`artifact_id`, `timestamp`) and the output index is
renumbered contiguously from zero. -/
theorem normalizer_output_sorted_and_reindexed (df : List (Nat × RawRow)) :
    List.Sorted rowKeyLe ((normalize_and_clean df).map Prod.snd) ∧
    (normalize_and_clean df).map Prod.fst = List.range (normalize_and_clean df).length := by
  constructor
  · have he : (normalize_and_clean df).map Prod.snd =
        (List.insertionSort pairKeyLe
          ((df.map (fun q => (q.1, coerceRow q.2))).filter (fun q => keepRow q.2))).map
          Prod.snd := by
      simp only [normalize_and_clean, resetIndex]
      exact List.enum_map_snd _
    have hs : List.Sorted pairKeyLe
        (List.insertionSort pairKeyLe
          ((df.map (fun q => (q.1, coerceRow q.2))).filter (fun q => keepRow q.2))) :=
      List.sorted_insertionSort pairKeyLe _
    rw [he]
    exact List.Pairwise.map Prod.snd (fun a b h => h) hs
  · simp only [normalize_and_clean, resetIndex]
    rw [List.enum_map_fst, List.enum_length]

/-- C4 counterexample: with source B's file missing but A's present and
holding a fully valid row, the stage does NOT proceed with A's rows —
`normalize_and_clean` raises `KeyError('artifact_id')` on the
column-less empty frame and the stage aborts — although with all three
files present the very same row is normalized into a non-empty
output. -/
theorem normalizer_missing_file_aborts :
    mainNormalizer true false true [boilerRawRow] [] [] =
      Except.error "KeyError: artifact_id" ∧
    mainNormalizer true true true [boilerRawRow] [] [] =
      Except.ok (normalize_and_clean (List.enum [boilerRawRow])) ∧
    normalize_and_clean (List.enum [boilerRawRow]) ≠ [] := by
  refine ⟨rfl, rfl, ?_⟩
  decide

/-- C4 (corrected): if any of the three required input files is absent,
the Normalizer prints a generic error and substitutes bare column-less
empty frames for ALL three sources — not only for the missing one —
whereupon `normalize_and_clean` raises an uncaught
`KeyError('artifact_id')`: the stage aborts and writes no output, so
rows from the present sources never reach it; only when all three files
are present are the loaded rows concatenated and normalized. -/
theorem mainNormalizer_missing_file_semantics (eA eB eC : Bool) (a b c : List RawRow) :
    (eA = false ∨ eB = false ∨ eC = false →
      mainNormalizer eA eB eC a b c = Except.error "KeyError: artifact_id") ∧
    (eA = true → eB = true → eC = true →
      mainNormalizer eA eB eC a b c =
        Except.ok (normalize_and_clean (List.enum (a ++ b ++ c)))) := by
  constructor
  · intro h
    simp only [mainNormalizer, if_pos h]
    rfl
  · intro ha hb hc
    simp [mainNormalizer, ha, hb, hc, normalize_and_clean_run]

/-- C4 witness: concrete instances of both branches. -/
theorem mainNormalizer_missing_file_semantics_witness :
    mainNormalizer true false true [boilerRawRow] [] [] =
      Except.error "KeyError: artifact_id" ∧
    mainNormalizer true true true [boilerRawRow] [] [] =
      Except.ok (normalize_and_clean (List.enum ([boilerRawRow] ++ [] ++ []))) :=
  ⟨(mainNormalizer_missing_file_semantics true false true [boilerRawRow] [] []).1
      (Or.inr (Or.inl rfl)),
   (mainNormalizer_missing_file_semantics true true true [boilerRawRow] [] []).2 rfl rfl rfl⟩

/-- C3 counterexample: an unexpected error while loading (Turtle parse
failure) and an assertion (check) failure produce the SAME exit status
1 — the three failure classes do not get three distinct codes. -/
theorem validator_exit_codes_not_distinct :
    validatorExit true none = 1 ∧ validatorExit true (some []) = 1 ∧
    checksPass [] = false :=
  ⟨rfl, rfl, rfl⟩

/-- C3 (corrected): the Validator exits 0 iff the Turtle file exists,
parses, and all three checks pass; a missing file gets the distinct
exit code 2, but assertion failures and unexpected errors (e.g. parse
failures) share exit code 1 — only two distinct nonzero codes are
used. -/
theorem validatorExit_semantics (e : Bool) (p : Option RDFGraph) :
    (validatorExit e p = 0 ↔ e = true ∧ ∃ g, p = some g ∧ checksPass g = true) ∧
    (e = false → validatorExit e p = 2) ∧
    (e = true → p = none → validatorExit e p = 1) ∧
    (∀ g, e = true → p = some g → checksPass g = false → validatorExit e p = 1) := by
  refine ⟨?_, ?_, ?_, ?_⟩
  · cases e with
    | false => simp [validatorExit]
    | true =>
        cases p with
        | none => simp [validatorExit]
        | some g =>
            cases hc : checksPass g with
            | false => simp [validatorExit, hc]
            | true =>
                simp only [validatorExit, hc]
                simp [hc]
  · intro h
    subst h
    rfl
  · intro he hp
    subst he
    subst hp
    rfl
  · intro g he hp hc
    subst he
    subst hp
    simp [validatorExit, hc]

/-- C3 witness: a missing file exits 2; an empty parsed graph fails the
checks and exits 1. -/
theorem validatorExit_semantics_witness :
    validatorExit false none = 2 ∧ validatorExit true (some []) = 1 :=
  ⟨(validatorExit_semantics false none).2.1 rfl,
   (validatorExit_semantics true (some [])).2.2.2 [] rfl rfl rfl⟩

/-- C2 (code bug): for the canonical table holding exactly the row
(Boiler-07, temperature, celsius, 98.6, 2024-01-01T00:00:00Z), the
graph emitted by the row-emission loop contains NO `bearer_of`
(BFO_0000196) edge at all — it links the Condition node to the Artifact
with the inverse property `inheres in` (BFO_0000197) instead — and its
instances are typed with IRIs under the `CommonCoreOntologiesMerged/`
namespace, which differ from the exact IRIs the Validator enforces, so
the type-presence and pattern-existence checks fail (completeness
passes vacuously) and the Validator exits 1, contradicting the claim
that all three checks pass. -/
theorem boiler_graph_fails_validator :
    ((buildGraph [boilerCsvRow]).any
        (fun t => decide (t.2.1 = Node.iri IRI_BEARER_OF))) = false ∧
    ((Node.iri (nsEX ++ "Boiler-07_temperature_2024-01-01T00-00-00Z"),
        Node.iri (nsOBO ++ "BFO_0000197"), Node.iri (nsEX ++ "Boiler-07"))
      ∈ buildGraph [boilerCsvRow]) ∧
    checkTypes (buildGraph [boilerCsvRow]) = false ∧
    checkPattern (buildGraph [boilerCsvRow]) = false ∧
    checkComplete (buildGraph [boilerCsvRow]) = true ∧
    validatorExit true (some (buildGraph [boilerCsvRow])) = 1 := by
  refine ⟨by decide, by decide, by decide, by decide, by decide, by decide⟩

/-- C5 counterexample: the distinct `artifact_id` values "A.1" and
"A 1" derive the SAME Artifact identifier, refuting the separation half
of the claim. -/
theorem artifact_identifier_collision :
    artifactUriOf "A.1" = artifactUriOf "A 1" ∧ ("A.1" : String) ≠ "A 1" := by
  constructor
  · rfl
  · decide

/-- C5 (corrected): identifier generation is deterministic — it is a
pure function of the field values — and two `artifact_id` values derive
the same Artifact identifier exactly when they sanitize to the same
slug; distinct ids that differ only in characters collapsed by the slug
(spaces, dashes, other non-word characters) collide. -/
theorem artifact_uri_injective_in_slug :
    (∀ a b : String, a = b → artifactUriOf a = artifactUriOf b) ∧
    (∀ a b : String, artifactUriOf a = artifactUriOf b ↔ artifactSlugOf a = artifactSlugOf b) := by
  constructor
  · intro a b h
    rw [h]
  · intro a b
    constructor
    · intro h
      have hd : nsEX.data ++ (artifactSlugOf a).data = nsEX.data ++ (artifactSlugOf b).data :=
        congrArg String.data h
      exact String.ext (List.append_cancel_left hd)
    · intro h
      unfold artifactUriOf
      rw [h]

/-- C5 witness: determinism at a concrete id, and a concrete equal-slug
pair giving equal identifiers. -/
theorem artifact_uri_injective_in_slug_witness :
    artifactUriOf "Boiler-07" = artifactUriOf "Boiler-07" ∧
    artifactUriOf "B.2" = artifactUriOf "B 2" :=
  ⟨artifact_uri_injective_in_slug.1 "Boiler-07" "Boiler-07" rfl,
   (artifact_uri_injective_in_slug.2 "B.2" "B 2").mpr rfl⟩

end OT
